import Mathlib

/-!
# Verification of the converSQL AI service layer

A shallow embedding, in Lean 4, of the AI-provider subsystem of the
converSQL repository:

* `src/ai_engines/base.py` — the adapter contract (`validate_response`,
  `clean_sql_response`, the abstract-method table of `AIEngineAdapter`);
* `src/ai_engines/bedrock_adapter.py`, `claude_adapter.py`,
  `gemini_adapter.py` — the three provider adapters;
* `src/ai_service.py` — the orchestration service (`AIService`,
  `BedrockClient`, `ClaudeClient`, prompt hashing and the response cache).

Modelling conventions:

* Python strings are modelled as `List Char` (`PyStr`).  Python's
  `str.strip` / `str.lower` / `str.upper` / `str.startswith` / `in` /
  `str.split` are modelled by executable functions below; the whitespace
  set is the ASCII whitespace set stripped by Python.
* Vendor SDK calls are the only non-deterministic operations; each call
  site is modelled by an explicit outcome parameter (an inductive datatype
  covering the observable cases of the source: returned text, empty
  response, provider-reported block, raised exception).  Functions that
  may perform a vendor call also return the number of vendor calls made,
  so that "no network call is attempted" is a provable statement.
* `hashlib.md5(...).hexdigest()` is embedded as an executable MD5 over the
  UTF-8 bytes of the input, so cache-key equality/inequality is decidable.
* Environment-derived module constants (`AI_PROVIDER`,
  `ENABLE_PROMPT_CACHE`) are passed as parameters.
-/

namespace ConverSQL

/-- Python strings, modelled as lists of characters. -/
abbrev PyStr := List Char

/-- Coerce a Lean string literal to the `PyStr` model. -/
def pystr (s : String) : PyStr := s.data

/-- The ASCII whitespace characters stripped by Python's `str.strip()`:
space, tab, newline, carriage return, vertical tab, form feed. -/
def pyIsSpace (c : Char) : Bool :=
  c = ' ' || c = '\t' || c = '\n' || c = '\r' || c = '\x0b' || c = '\x0c'

/-- Python `s.strip()`: drop leading and trailing whitespace. -/
def pyStrip (s : PyStr) : PyStr :=
  (s.dropWhile pyIsSpace).rdropWhile pyIsSpace

/-- Python `s.lower()` (ASCII case mapping, which is all the source uses). -/
def pyLower (s : PyStr) : PyStr := s.map Char.toLower

/-- Python `s.upper()` (ASCII case mapping). -/
def pyUpper (s : PyStr) : PyStr := s.map Char.toUpper

/-- Python `sub in s` for strings: `sub` occurs as a contiguous substring. -/
def pyContains (sub : PyStr) : PyStr → Bool
  | [] => sub.isEmpty
  | c :: t => sub.isPrefixOf (c :: t) || pyContains sub t

/-- Fuel-driven worker for `pySplit`; one unit of fuel is spent per
consumed character, so `s.length` fuel always suffices. -/
def pySplitAux (sep : PyStr) : Nat → PyStr → PyStr → List PyStr
  | _, [], acc => [acc.reverse]
  | 0, s, acc => [acc.reverse ++ s]
  | fuel + 1, c :: rest, acc =>
    if sep ≠ [] && sep.isPrefixOf (c :: rest) then
      acc.reverse :: pySplitAux sep fuel ((c :: rest).drop sep.length) []
    else
      pySplitAux sep fuel rest (c :: acc)

/-- Python `s.split(sep)` for a non-empty separator: split on every
non-overlapping occurrence, left to right. -/
def pySplit (sep s : PyStr) : List PyStr := pySplitAux sep s.length s []

/-! ## `src/ai_engines/base.py` — the adapter contract -/

/-- The allow-list checked by `AIEngineAdapter.validate_response`
(`sql_keywords` in the source). -/
def sqlKeywords : List PyStr :=
  [pystr "select", pystr "insert", pystr "update", pystr "delete",
   pystr "create", pystr "drop", pystr "with"]

/-- The destructive-operation list checked by `validate_response`
(`dangerous_keywords` in the source). -/
def dangerousKeywords : List PyStr :=
  [pystr "drop", pystr "delete", pystr "truncate", pystr "alter"]

/-- The warning message produced for destructive keywords. -/
def destructiveWarning : PyStr :=
  pystr "Warning: Query contains potentially destructive operations"

/-- `AIEngineAdapter.validate_response` (base.py lines 127-159):
reject empty/whitespace-only text and text not starting with an allow-list
keyword; flag (without rejecting) text containing a destructive keyword. -/
def validateResponse (sql : PyStr) : Bool × PyStr :=
  if sql.isEmpty || (pyStrip sql).isEmpty then
    (false, pystr "Empty SQL query generated")
  else if !(sqlKeywords.any fun k => k.isPrefixOf (pyStrip (pyLower sql))) then
    (false, pystr "Generated text does not appear to be valid SQL")
  else if dangerousKeywords.any fun k => pyContains k (pyStrip (pyLower sql)) then
    (true, destructiveWarning)
  else
    (true, [])

/-- The conversational prefixes stripped by `clean_sql_response`
(`prefixes_to_remove` in the source). -/
def cleanPrefixes : List PyStr :=
  [pystr "here\x27s the sql query:", pystr "here is the sql query:",
   pystr "sql query:", pystr "query:"]

/-- The triple-backtick fence marker. -/
def tickFence : PyStr := pystr "```"

/-- The `for i, part in enumerate(parts)` loop of `clean_sql_response`:
the first stripped part starting with `"sql"` yields `part[3:].strip()`;
otherwise the first part (beyond index 0) whose upper-case form starts
with `SELECT` or `WITH` yields `part.strip()`. -/
def findCodeBlockPart : Nat → List PyStr → Option PyStr
  | _, [] => none
  | i, part :: rest =>
    if (pystr "sql").isPrefixOf (pyStrip part) then
      some (pyStrip ((pyStrip part).drop 3))
    else if decide (0 < i) &&
        ((pystr "SELECT").isPrefixOf (pyUpper (pyStrip part)) ||
         (pystr "WITH").isPrefixOf (pyUpper (pyStrip part))) then
      some (pyStrip (pyStrip part))
    else
      findCodeBlockPart (i + 1) rest

/-- The prefix-removal loop of `clean_sql_response`: the first prefix of
`sql.lower()` found in `cleanPrefixes` is sliced off the original text,
which is then stripped; no match leaves the text unchanged. -/
def stripConversationalPrefix (sql : PyStr) : PyStr :=
  match cleanPrefixes.find? (fun p => p.isPrefixOf (pyLower sql)) with
  | some p => pyStrip (sql.drop p.length)
  | none => sql

/-- The markdown-fence phase of `clean_sql_response`: when the text
contains a triple backtick, split on it and look for a code-block part;
the text is unchanged when no part matches. -/
def extractCodeBlock (sql : PyStr) : PyStr :=
  if pyContains tickFence sql then
    match findCodeBlockPart 0 (pySplit tickFence sql) with
    | some extracted => extracted
    | none => sql
  else sql

/-- `AIEngineAdapter.clean_sql_response` (base.py lines 161-206):
strip, extract a fenced code block if present, then drop a leading
conversational prefix. -/
def cleanSqlResponse (response : PyStr) : PyStr :=
  stripConversationalPrefix (extractCodeBlock (pyStrip response))

/-! ## MD5 (`hashlib.md5(...).hexdigest()`)

`AIService._create_prompt_hash` derives the cache key as the MD5 hex
digest of the UTF-8 bytes of `f"{question}|{schema}|{provider}"`.  The
algorithm below is RFC 1321 MD5 over byte lists, fully executable so that
digest (in)equality at concrete inputs is decidable. -/

/-- UTF-8 encoding of one scalar value. -/
def charUtf8 (c : Char) : List Nat :=
  let n := c.toNat
  if n < 128 then [n]
  else if n < 2048 then [192 + n / 64, 128 + n % 64]
  else if n < 65536 then [224 + n / 4096, 128 + (n / 64) % 64, 128 + n % 64]
  else [240 + n / 262144, 128 + (n / 4096) % 64, 128 + (n / 64) % 64, 128 + n % 64]

/-- UTF-8 encoding of a string (Python `s.encode()`). -/
def utf8Encode (s : PyStr) : List Nat := s.flatMap charUtf8

/-- 2^32, the MD5 word modulus. -/
def w32 : Nat := 4294967296

/-- Left-rotation of a 32-bit word. -/
def rotl32 (x n : Nat) : Nat := ((x <<< n) % w32) ||| (x >>> (32 - n))

/-- The 64 MD5 sine-derived constants `K`. -/
def md5K : List Nat :=
  [3614090360, 3905402710, 606105819, 3250441966, 4118548399, 1200080426,
   2821735955, 4249261313, 1770035416, 2336552879, 4294925233, 2304563134,
   1804603682, 4254626195, 2792965006, 1236535329, 4129170786, 3225465664,
   643717713, 3921069994, 3593408605, 38016083, 3634488961, 3889429448,
   568446438, 3275163606, 4107603335, 1163531501, 2850285829, 4243563512,
   1735328473, 2368359562, 4294588738, 2272392833, 1839030562, 4259657740,
   2763975236, 1272893353, 4139469664, 3200236656, 681279174, 3936430074,
   3572445317, 76029189, 3654602809, 3873151461, 530742520, 3299628645,
   4096336452, 1126891415, 2878612391, 4237533241, 1700485571, 2399980690,
   4293915773, 2240044497, 1873313359, 4264355552, 2734768916, 1309151649,
   4149444226, 3174756917, 718787259, 3951481745]

/-- The 64 MD5 per-round shift amounts `s`. -/
def md5S : List Nat :=
  [7, 12, 17, 22, 7, 12, 17, 22, 7, 12, 17, 22, 7, 12, 17, 22,
   5, 9, 14, 20, 5, 9, 14, 20, 5, 9, 14, 20, 5, 9, 14, 20,
   4, 11, 16, 23, 4, 11, 16, 23, 4, 11, 16, 23, 4, 11, 16, 23,
   6, 10, 15, 21, 6, 10, 15, 21, 6, 10, 15, 21, 6, 10, 15, 21]

/-- MD5 padding: `0x80`, zeros to 56 mod 64, then the 64-bit little-endian
bit length. -/
def md5Pad (msg : List Nat) : List Nat :=
  let n := msg.length
  let zeros := (119 - n % 64) % 64
  let bitLen := (8 * n) % (w32 * w32)
  msg ++ [128] ++ List.replicate zeros 0 ++
    (List.range 8).map (fun i => (bitLen >>> (8 * i)) % 256)

/-- Split a byte list into 64-byte chunks (fuel-driven; `l.length` fuel
always suffices since each step consumes at least one byte). -/
def md5ChunksAux : Nat → List Nat → List (List Nat)
  | _, [] => []
  | 0, l => [l]
  | fuel + 1, l => l.take 64 :: md5ChunksAux fuel (l.drop 64)

/-- The sixteen little-endian 32-bit words of one 64-byte chunk. -/
def md5Words (chunk : List Nat) : List Nat :=
  (List.range 16).map (fun j =>
    chunk.getD (4 * j) 0 + 256 * chunk.getD (4 * j + 1) 0 +
      65536 * chunk.getD (4 * j + 2) 0 + 16777216 * chunk.getD (4 * j + 3) 0)

/-- One of the 64 MD5 rounds. -/
def md5Round (m : List Nat) (st : Nat × Nat × Nat × Nat) (i : Nat) :
    Nat × Nat × Nat × Nat :=
  let (a, b, c, d) := st
  let fg : Nat × Nat :=
    if i < 16 then ((b &&& c) ||| ((b ^^^ (w32 - 1)) &&& d), i)
    else if i < 32 then ((d &&& b) ||| ((d ^^^ (w32 - 1)) &&& c), (5 * i + 1) % 16)
    else if i < 48 then (b ^^^ c ^^^ d, (3 * i + 5) % 16)
    else (c ^^^ (b ||| (d ^^^ (w32 - 1))), (7 * i) % 16)
  let tmp := (a + fg.1 + md5K.getD i 0 + m.getD fg.2 0) % w32
  (d, (b + rotl32 tmp (md5S.getD i 0)) % w32, b, c)

/-- Process one 64-byte chunk. -/
def md5ProcessChunk (st : Nat × Nat × Nat × Nat) (chunk : List Nat) :
    Nat × Nat × Nat × Nat :=
  let m := md5Words chunk
  let r := (List.range 64).foldl (md5Round m) st
  ((st.1 + r.1) % w32, (st.2.1 + r.2.1) % w32,
   (st.2.2.1 + r.2.2.1) % w32, (st.2.2.2 + r.2.2.2) % w32)

/-- The sixteen digest bytes of an MD5 computation over a byte list. -/
def md5Digest (msg : List Nat) : List Nat :=
  let padded := md5Pad msg
  let st := (md5ChunksAux padded.length padded).foldl md5ProcessChunk
    (1732584193, 4023233417, 2562383102, 271733878)
  [st.1, st.2.1, st.2.2.1, st.2.2.2].flatMap
    (fun word => (List.range 4).map (fun i => (word >>> (8 * i)) % 256))

/-- Lower-case hex digit. -/
def hexDigit (n : Nat) : Char :=
  if n < 10 then Char.ofNat (48 + n) else Char.ofNat (87 + n)

/-- `hashlib.md5(bytes).hexdigest()`. -/
def md5Hexdigest (msg : List Nat) : PyStr :=
  (md5Digest msg).foldr (fun b acc => hexDigit (b / 16) :: hexDigit (b % 16) :: acc) []

/-! ## `src/ai_service.py` — provider clients and orchestration service -/

/-- The provider identifiers the service's `_determine_active_provider`
can select (`'claude'` / `'bedrock'` string literals in the source). -/
inductive Provider where
  | claude
  | bedrock
deriving DecidableEq

/-- The provider id string as stored in `active_provider`. -/
def providerStr : Provider → PyStr
  | .claude => pystr "claude"
  | .bedrock => pystr "bedrock"

/-- Observable outcome of one vendor SDK call made by the plain clients in
`ai_service.py`: the call either produces response text or raises an
exception with message `str(e)`. -/
inductive VendorOutcome where
  | ok (text : PyStr)
  | raised (msg : PyStr)

/-- `BedrockClient.generate_sql` (ai_service.py lines 66-92).  The second
component counts vendor (`invoke_model`) calls. -/
def bedrockClientGenerateSql (clientAvail : Bool) (outcome : VendorOutcome) :
    (PyStr × PyStr) × Nat :=
  if !clientAvail then
    (([], pystr "Bedrock client not available"), 0)
  else
    match outcome with
    | .ok text => ((pyStrip text, []), 1)
    | .raised msg => (([], pystr "Bedrock error: " ++ msg), 1)

/-- `ClaudeClient.generate_sql` (ai_service.py lines 133-150). -/
def claudeClientGenerateSql (clientAvail : Bool) (outcome : VendorOutcome) :
    (PyStr × PyStr) × Nat :=
  if !clientAvail then
    (([], pystr "Claude API client not available"), 0)
  else
    match outcome with
    | .ok text => ((pyStrip text, []), 1)
    | .raised msg => (([], pystr "Claude API error: " ++ msg), 1)

/-- `AIService._determine_active_provider` (ai_service.py lines 162-173).
`aiProvider` is the module constant `AI_PROVIDER` (the lower-cased
`AI_PROVIDER` environment value). -/
def determineActiveProvider (aiProvider : PyStr)
    (claudeAvail bedrockAvail : Bool) : Option Provider :=
  if aiProvider == pystr "claude" && claudeAvail then some .claude
  else if aiProvider == pystr "bedrock" && bedrockAvail then some .bedrock
  else if claudeAvail then some .claude
  else if bedrockAvail then some .bedrock
  else none

/-- The combined pre-hash string `f"{user_question}|{schema_context}|{self.active_provider}"`
of `AIService._create_prompt_hash` (ai_service.py line 193). -/
def combinedHashInput (question schema provider : PyStr) : PyStr :=
  question ++ pystr "|" ++ schema ++ pystr "|" ++ provider

/-- `AIService._create_prompt_hash` (ai_service.py lines 191-194):
the MD5 hex digest of the combined string. -/
def createPromptHash (question schema provider : PyStr) : PyStr :=
  md5Hexdigest (utf8Encode (combinedHashInput question schema provider))

/-- `AIService._cached_generate_sql` (ai_service.py lines 276-281).  The
body is a placeholder that always returns `("", "")`; `st.cache_data`
memoizes exactly this constant value, so a lookup can never produce a
non-empty cached SQL string. -/
def cachedGenerateSql (_question _schema _provider : PyStr) : PyStr × PyStr :=
  ([], [])

/-- The static message returned by `AIService.generate_sql` when no
provider is available (ai_service.py lines 289-299). -/
def noProviderError : PyStr :=
  pystr "🚫 **AI SQL Generation Unavailable**\n\nNo AI providers are configured or available. This could be due to:\n- Missing API keys (Claude API key or AWS credentials)\n- Network connectivity issues\n- Service configuration problems\n\n**You can still use the application by:**\n- Writing SQL queries manually in the Advanced tab\n- Using the sample queries provided\n- Referring to the database schema for guidance"

/-- `AIService.generate_sql` (ai_service.py lines 283-331).

Parameters: `enableCache` is the module constant `ENABLE_PROMPT_CACHE`;
`active` is `self.active_provider`; `claudeAvail` / `bedrockAvail` are the
two clients' availability; the two outcomes say what each client's vendor
call would observe if made.  The result pairs the returned
`(sql, error, provider_used)` triple with the number of vendor calls.

The prompt built by `_build_sql_prompt` is passed only to the vendor call,
whose behaviour is already quantified by the outcome parameter, so the
template text plays no role in any observable of this model. -/
def aiServiceGenerateSql (enableCache : Bool) (active : Option Provider)
    (claudeAvail bedrockAvail : Bool)
    (claudeOutcome bedrockOutcome : VendorOutcome)
    (question schema : PyStr) : (PyStr × PyStr × PyStr) × Nat :=
  match active with
  | none => (([], noProviderError, pystr "none"), 0)
  | some prov =>
    let provS := providerStr prov
    -- cache lookup: `cache_key` is computed but unused by the lookup (the
    -- memo keys on the call arguments); the memoized placeholder always
    -- yields `("", "")`, whose first component is falsy.
    let _cacheKey := createPromptHash question schema provS
    let cacheHit : Option (PyStr × PyStr) :=
      if enableCache then
        let cached := cachedGenerateSql question schema provS
        if !cached.1.isEmpty then some cached else none
      else none
    match cacheHit with
    | some cached => ((cached.1, cached.2, provS ++ pystr " (cached)"), 0)
    | none =>
      let result :=
        match prov with
        | .claude => claudeClientGenerateSql claudeAvail claudeOutcome
        | .bedrock => bedrockClientGenerateSql bedrockAvail bedrockOutcome
      -- on success the source re-invokes the cached placeholder to "update"
      -- the cache; the placeholder ignores its arguments and stores ("", ""),
      -- so this has no observable effect.
      ((result.1.1, result.1.2, provS), result.2)

/-- Exactly one of the `sql` and `error` components of a
`(sql, error, provider_used)` triple is non-empty. -/
def exactlyOneNonEmpty (r : PyStr × PyStr × PyStr) : Prop :=
  (r.1 ≠ [] ∧ r.2.1 = []) ∨ (r.1 = [] ∧ r.2.1 ≠ [])

instance (r : PyStr × PyStr × PyStr) : Decidable (exactlyOneNonEmpty r) := by
  unfold exactlyOneNonEmpty; infer_instance

/-! ## `src/ai_engines/*.py` — the provider adapters

Each adapter's generate-SQL implementation is embedded as a function of
the adapter's initialized state and of the observable outcome of the one
vendor call it may make; the `Nat` component counts vendor calls. -/

/-- State of a `GeminiAdapter` after `_initialize`:
whether `self.model` was constructed and whether `self.api_key` resolved. -/
structure GeminiAdapterState where
  modelLoaded : Bool
  apiKeyPresent : Bool

/-- `GeminiAdapter.is_available` (gemini_adapter.py lines 100-102):
`self.model is not None and self.api_key is not None`. -/
def geminiIsAvailable (st : GeminiAdapterState) : Bool :=
  st.modelLoaded && st.apiKeyPresent

/-- Observable outcome of `model.generate_content(prompt)` as inspected by
`GeminiAdapter.generate_sql`: truthy `response.text`; empty text with a
`prompt_feedback.block_reason`; empty text without one; or an exception. -/
inductive GeminiOutcome where
  | text (t : PyStr)
  | blocked (reason : PyStr)
  | empty
  | raised (msg : PyStr)

/-- The error-annotation chain of `GeminiAdapter.generate_sql`
(gemini_adapter.py lines 145-159). -/
def geminiAnnotateError (msg : PyStr) : PyStr :=
  let base := pystr "Gemini API error: " ++ msg
  let el := pyLower msg
  if pyContains (pystr "api key") el || pyContains (pystr "api_key") el then
    base ++ pystr "\nCheck GOOGLE_API_KEY or GEMINI_API_KEY environment variable"
  else if pyContains (pystr "quota") el || pyContains (pystr "rate limit") el then
    base ++ pystr "\nAPI quota exceeded or rate limited"
  else if pyContains (pystr "safety") el || pyContains (pystr "blocked") el then
    base ++ pystr "\nContent was blocked by safety filters"
  else if pyContains (pystr "model") el then
    base ++ pystr "\nModel may not be available or accessible"
  else base

/-- `GeminiAdapter.generate_sql` (gemini_adapter.py lines 104-159).  The
inner `if model is None` re-check is unreachable once `is_available()` has
returned true and is therefore not a separate branch here. -/
def geminiGenerateSql (st : GeminiAdapterState) (outcome : GeminiOutcome) :
    (PyStr × PyStr) × Nat :=
  if !geminiIsAvailable st then
    (([], pystr "Gemini not available. Check GOOGLE_API_KEY configuration."), 0)
  else
    match outcome with
    | .text t =>
      let sql := cleanSqlResponse t
      let v := validateResponse sql
      if !v.1 then (([], pystr "Invalid SQL generated: " ++ v.2), 1)
      else ((sql, []), 1)
    | .blocked reason => (([], pystr "Response blocked: " ++ reason), 1)
    | .empty => (([], pystr "Gemini returned empty response"), 1)
    | .raised msg => (([], geminiAnnotateError msg), 1)

/-- State of a `BedrockAdapter` after `_initialize`. -/
structure BedrockAdapterState where
  clientLoaded : Bool
  modelId : Option PyStr
  region : Option PyStr

/-- `BedrockAdapter.is_available` (bedrock_adapter.py lines 111-113):
`self.client is not None and self.model_id is not None`. -/
def bedrockAdapterIsAvailable (st : BedrockAdapterState) : Bool :=
  st.clientLoaded && st.modelId.isSome

/-- Observable outcome of `client.invoke_model(...)` plus response parsing
as inspected by `BedrockAdapter._generate_sql_impl`: a non-empty `content`
list with text; an empty/absent `content`; or an exception. -/
inductive BedrockOutcome where
  | content (t : PyStr)
  | empty
  | raised (msg : PyStr)

/-- Python `str(x)` of an optional string (used inside f-strings). -/
def pyStrOfOpt (o : Option PyStr) : PyStr :=
  match o with
  | some s => s
  | none => pystr "None"

/-- The error-annotation chain of `BedrockAdapter._generate_sql_impl`
(bedrock_adapter.py lines 181-193). -/
def bedrockAnnotateError (st : BedrockAdapterState) (msg : PyStr) : PyStr :=
  let base := pystr "Bedrock API error: " ++ msg
  let el := pyLower msg
  if pyContains (pystr "credentials") el || pyContains (pystr "access denied") el then
    base ++ pystr "\nCheck AWS credentials (aws configure) or IAM permissions"
  else if pyContains (pystr "throttling") el || pyContains (pystr "rate") el then
    base ++ pystr "\nAPI rate limit exceeded. Try again in a moment"
  else if pyContains (pystr "model") el then
    base ++ pystr "\nModel " ++ pyStrOfOpt st.modelId ++
      pystr " may not be available in " ++ pyStrOfOpt st.region
  else base

/-- `BedrockAdapter._generate_sql_impl` (bedrock_adapter.py lines 115-193).
The mid-function `model_id is None` / `client is None` re-checks are
unreachable once `is_available()` has returned true. -/
def bedrockGenerateSqlImpl (st : BedrockAdapterState) (outcome : BedrockOutcome) :
    (PyStr × PyStr) × Nat :=
  if !bedrockAdapterIsAvailable st then
    (([], pystr "Bedrock client not available. Check AWS credentials and configuration."), 0)
  else
    match outcome with
    | .content t =>
      let sql := cleanSqlResponse t
      let v := validateResponse sql
      if !v.1 then (([], pystr "Invalid SQL generated: " ++ v.2), 1)
      else ((sql, []), 1)
    | .empty => (([], pystr "Bedrock returned empty response"), 1)
    | .raised msg => (([], bedrockAnnotateError st msg), 1)

/-- State of a `ClaudeAdapter` after `_initialize`. -/
structure ClaudeAdapterState where
  clientLoaded : Bool
  apiKey : Option PyStr
  model : Option PyStr
  maxTokens : Option Nat

/-- `ClaudeAdapter.is_available` (claude_adapter.py lines 70-72):
client, api key and model must all be present (`max_tokens` is not
consulted here). -/
def claudeAdapterIsAvailable (st : ClaudeAdapterState) : Bool :=
  st.clientLoaded && st.apiKey.isSome && st.model.isSome

/-- Observable outcome of `client.messages.create(...)` as inspected by
`ClaudeAdapter._generate_sql_impl`. -/
inductive ClaudeOutcome where
  | content (t : PyStr)
  | empty
  | raised (msg : PyStr)

/-- The error-annotation chain of `ClaudeAdapter._generate_sql_impl`
(claude_adapter.py lines 116-128). -/
def claudeAnnotateError (st : ClaudeAdapterState) (msg : PyStr) : PyStr :=
  let base := pystr "Claude API error: " ++ msg
  let el := pyLower msg
  if pyContains (pystr "api_key") el || pyContains (pystr "authentication") el then
    base ++ pystr "\nCheck CLAUDE_API_KEY environment variable"
  else if pyContains (pystr "rate") el || pyContains (pystr "quota") el then
    base ++ pystr "\nAPI rate limit or quota exceeded"
  else if pyContains (pystr "model") el then
    base ++ pystr "\nModel " ++ pyStrOfOpt st.model ++
      pystr " may not be available or accessible"
  else base

/-- `ClaudeAdapter._generate_sql_impl` (claude_adapter.py lines 74-128).
After the availability gate the source re-checks
`client is None or model is None or max_tokens is None`; only the
`max_tokens` disjunct can still fire, and it returns the same
unavailability message without a vendor call. -/
def claudeGenerateSqlImpl (st : ClaudeAdapterState) (outcome : ClaudeOutcome) :
    (PyStr × PyStr) × Nat :=
  if !claudeAdapterIsAvailable st then
    (([], pystr "Claude API not available. Check CLAUDE_API_KEY configuration."), 0)
  else if st.maxTokens.isNone then
    (([], pystr "Claude API not available. Check CLAUDE_API_KEY configuration."), 0)
  else
    match outcome with
    | .content t =>
      let sql := cleanSqlResponse t
      let v := validateResponse sql
      if !v.1 then (([], pystr "Invalid SQL generated: " ++ v.2), 1)
      else ((sql, []), 1)
    | .empty => (([], pystr "Claude returned empty response"), 1)
    | .raised msg => (([], claudeAnnotateError st msg), 1)

/-! ## Python ABC semantics for the adapter classes

`AIEngineAdapter` declares five abstract methods.  In Python, calling a
subclass constructor raises `TypeError` if and only if some abstract
method of the base is left without a concrete override.  The method
tables below are transcribed from the class bodies of the three adapter
files. -/

/-- The `@abstractmethod` members of `AIEngineAdapter` (base.py). -/
def baseAbstractMethods : List String :=
  ["_initialize", "is_available", "generate_sql", "name", "provider_id"]

/-- Methods defined in the class body of `BedrockAdapter`
(bedrock_adapter.py): note `_generate_sql_impl`, not `generate_sql`. -/
def bedrockAdapterMethods : List String :=
  ["__init__", "_initialize", "is_available", "_generate_sql_impl",
   "name", "provider_id", "get_model_info"]

/-- Methods defined in the class body of `ClaudeAdapter`
(claude_adapter.py): note `_generate_sql_impl`, not `generate_sql`. -/
def claudeAdapterMethods : List String :=
  ["__init__", "_initialize", "is_available", "_generate_sql_impl",
   "name", "provider_id", "get_model_info"]

/-- Methods defined in the class body of `GeminiAdapter`
(gemini_adapter.py). -/
def geminiAdapterMethods : List String :=
  ["__init__", "_initialize", "is_available", "generate_sql",
   "name", "provider_id", "get_model_info", "set_safety_settings"]

/-- Python's ABC rule: instantiation raises `TypeError` iff some abstract
method of the base has no override in the subclass. -/
def abcInstantiationRaises (methods : List String) : Bool :=
  baseAbstractMethods.any (fun m => !(methods.contains m))

/-! ## The orchestration service's provider switching (modelled from spec)

`set_active_provider` is invoked from `app.py` and `src/ui/sidebar.py`
but its definition is not present in the source tree (the `AIService` in
`src/ai_service.py` does not define it). -/

/-- Modelled from the spec: the observable state of the orchestration
service that `set_active_provider` reads and writes — one adapter per
provider id in {bedrock, claude, gemini} with its availability, plus the
currently active provider.  (`AIService.set_active_provider` itself is
missing from the source; only its call sites exist.) -/
structure OrchestratorState where
  bedrockAvailable : Bool
  claudeAvailable : Bool
  geminiAvailable : Bool
  activeProvider : Option PyStr
deriving DecidableEq

/-- Modelled from the spec: whether `id` names an adapter of the service
that currently reports available; an unknown id names no adapter. -/
def adapterAvailable (st : OrchestratorState) (id : PyStr) : Bool :=
  if id == pystr "bedrock" then st.bedrockAvailable
  else if id == pystr "claude" then st.claudeAvailable
  else if id == pystr "gemini" then st.geminiAvailable
  else false

/-- Modelled from the spec: "`set_active_provider(id)` — only succeeds
(returns true) if `id` names an adapter that is currently available;
otherwise no state change, returns false." -/
def setActiveProvider (st : OrchestratorState) (id : PyStr) :
    Bool × OrchestratorState :=
  if adapterAvailable st id then (true, { st with activeProvider := some id })
  else (false, st)

/-! ## Spec-side definitions used to compare claims against the code -/

/-- The claim's notion of the first token of the generated text
(case-insensitive): the first maximal whitespace-free run of the
lower-cased, stripped text. -/
def firstToken (sql : PyStr) : PyStr :=
  (pyStrip (pyLower sql)).takeWhile (fun c => !pyIsSpace c)

/-- The claim's provider-determination rule, stated from the spec's words:
prefer the operator-configured default if that adapter reports available;
otherwise the first available provider in the fixed enumeration order
bedrock, claude, gemini; otherwise unset. -/
def specDetermineActiveProvider (defaultProvider : PyStr)
    (bedrockAvail claudeAvail geminiAvail : Bool) : Option PyStr :=
  let avail : PyStr → Bool := fun id =>
    if id == pystr "bedrock" then bedrockAvail
    else if id == pystr "claude" then claudeAvail
    else if id == pystr "gemini" then geminiAvail
    else false
  if avail defaultProvider then some defaultProvider
  else if bedrockAvail then some (pystr "bedrock")
  else if claudeAvail then some (pystr "claude")
  else if geminiAvail then some (pystr "gemini")
  else none

end ConverSQL

namespace ConverSQL

/-- Sanity: RFC 1321 test vectors for the embedded MD5. -/
theorem md5_test_vectors :
    md5Hexdigest (utf8Encode (pystr "")) = pystr "d41d8cd98f00b204e9800998ecf8427e" ∧
    md5Hexdigest (utf8Encode (pystr "abc")) = pystr "900150983cd24fb0d6963f7d28e17f72" := by
  decide

/-- Sanity: the spec's end-to-end cleaning example. -/
theorem cleanSqlResponse_fenced_example :
    cleanSqlResponse (pystr "```sql\nSELECT * FROM data WHERE STATE=\x27CA\x27 AND CSCORE_B<620\n```") =
      pystr "SELECT * FROM data WHERE STATE=\x27CA\x27 AND CSCORE_B<620" := by
  decide

/-- Sanity: the spec's basic validation examples. -/
theorem validateResponse_examples :
    (validateResponse (pystr "")).1 = false ∧
    (validateResponse (pystr "   ")).1 = false ∧
    validateResponse (pystr "SELECT 1") = (true, []) ∧
    validateResponse (pystr "DROP TABLE x") = (true, destructiveWarning) := by
  decide

/-! ## Helper lemmas about the Python string model -/

/-- Stripping is idempotent. -/
theorem pyStrip_idem (s : PyStr) : pyStrip (pyStrip s) = pyStrip s := by
  unfold pyStrip
  set X := List.dropWhile pyIsSpace s with hX
  have h1 : List.dropWhile pyIsSpace (List.rdropWhile pyIsSpace X) =
      List.rdropWhile pyIsSpace X := by
    rw [List.dropWhile_eq_self_iff]
    intro hl
    have hpre : List.rdropWhile pyIsSpace X <+: X := List.rdropWhile_prefix _ _
    have hlen : 0 < X.length := lt_of_lt_of_le hl hpre.length_le
    have hget : X.get ⟨0, hlen⟩ = (List.rdropWhile pyIsSpace X).get ⟨0, hl⟩ := by
      simpa [List.get_eq_getElem] using (hpre.getElem (n := 0) hl).symm
    have hnot := List.dropWhile_get_zero_not (p := pyIsSpace) s (hX ▸ hlen)
    simp only [List.get_eq_getElem] at hget hnot ⊢
    rw [← hget]
    exact hnot
  rw [h1, List.rdropWhile_idempotent]

/-- `pyContains` decides substring occurrence (`List.IsInfix`). -/
theorem pyContains_iff (sub s : PyStr) : pyContains sub s = true ↔ sub <:+: s := by
  induction s with
  | nil =>
    simp [pyContains, List.isEmpty_iff, List.infix_nil]
  | cons c t ih =>
    simp [pyContains, Bool.or_eq_true, List.isPrefixOf_iff_prefix, ih,
      List.infix_cons_iff]

/-- A non-empty substring of whitespace-free characters survives
`dropWhile pyIsSpace`. -/
theorem infix_dropWhile_of_nonspace (p : PyStr)
    (hp : ∀ c ∈ p, pyIsSpace c = false) (hne : p ≠ []) :
    ∀ l : PyStr, p <:+: l → p <:+: l.dropWhile pyIsSpace := by
  intro l
  induction l with
  | nil =>
    intro h
    rw [List.infix_nil] at h
    exact absurd h hne
  | cons a t ih =>
    intro h
    by_cases ha : pyIsSpace a = true
    · rw [List.dropWhile_cons, if_pos ha]
      rcases List.infix_cons_iff.mp h with hpre | hinf
      · rcases List.prefix_cons_iff.mp hpre with rfl | ⟨t2, rfl, _⟩
        · exact absurd rfl hne
        · have := hp a (List.mem_cons_self a t2)
          rw [ha] at this
          exact absurd this (by simp)
      · exact ih hinf
    · rw [List.dropWhile_cons, if_neg ha]
      exact h

/-- A non-empty substring of whitespace-free characters survives
stripping. -/
theorem infix_pyStrip_of_nonspace (p : PyStr)
    (hp : ∀ c ∈ p, pyIsSpace c = false) (hne : p ≠ []) (l : PyStr)
    (h : p <:+: l) : p <:+: pyStrip l := by
  unfold pyStrip
  have h1 : p <:+: List.dropWhile pyIsSpace l :=
    infix_dropWhile_of_nonspace p hp hne l h
  have h2 : p.reverse <:+: (List.dropWhile pyIsSpace l).reverse :=
    List.reverse_infix.mpr h1
  have h3 : p.reverse <:+:
      ((List.dropWhile pyIsSpace l).reverse).dropWhile pyIsSpace := by
    refine infix_dropWhile_of_nonspace p.reverse ?_ ?_ _ h2
    · intro c hc
      exact hp c (List.mem_reverse.mp hc)
    · simpa using hne
  rw [List.rdropWhile]
  rw [← List.reverse_infix, List.reverse_reverse]
  exact h3

/-- Every result of the code-block search is a stripped string. -/
theorem findCodeBlockPart_strip :
    ∀ (parts : List PyStr) (i : Nat) (r : PyStr),
      findCodeBlockPart i parts = some r → ∃ y, r = pyStrip y := by
  intro parts
  induction parts with
  | nil =>
    intro i r h
    simp [findCodeBlockPart] at h
  | cons part rest ih =>
    intro i r h
    unfold findCodeBlockPart at h
    split at h
    · exact ⟨_, (Option.some.injEq _ _ ▸ h).symm⟩
    · split at h
      · exact ⟨_, (Option.some.injEq _ _ ▸ h).symm⟩
      · exact ih (i + 1) r h

/-- The fence-extraction phase maps a stripped input to a stripped
output. -/
theorem extractCodeBlock_strip (x : PyStr) :
    ∃ y, extractCodeBlock (pyStrip x) = pyStrip y := by
  unfold extractCodeBlock
  split
  · cases hfp : findCodeBlockPart 0 (pySplit tickFence (pyStrip x)) with
    | some r =>
      rcases findCodeBlockPart_strip _ 0 r hfp with ⟨y, hy⟩
      exact ⟨y, hy⟩
    | none =>
      exact ⟨x, rfl⟩
  · exact ⟨x, rfl⟩

/-- The prefix-removal phase maps stripped forms to stripped forms. -/
theorem stripConversationalPrefix_strip (z : PyStr)
    (hz : ∃ y, z = pyStrip y) :
    ∃ y, stripConversationalPrefix z = pyStrip y := by
  unfold stripConversationalPrefix
  cases hf : List.find? (fun p => p.isPrefixOf (pyLower z)) cleanPrefixes with
  | some p =>
    exact ⟨_, rfl⟩
  | none =>
    exact hz

/-- The output of `cleanSqlResponse` is always a stripped string. -/
theorem cleanSqlResponse_eq_strip (x : PyStr) :
    ∃ y, cleanSqlResponse x = pyStrip y := by
  unfold cleanSqlResponse
  exact stripConversationalPrefix_strip _ (extractCodeBlock_strip x)

/-- The output of `cleanSqlResponse` is a fixed point of `pyStrip`. -/
theorem cleanSqlResponse_stripped (x : PyStr) :
    pyStrip (cleanSqlResponse x) = cleanSqlResponse x := by
  rcases cleanSqlResponse_eq_strip x with ⟨y, hy⟩
  rw [hy, pyStrip_idem]

/-- A stripped string with no fence and no conversational prefix is a
fixed point of `cleanSqlResponse`. -/
theorem cleanSqlResponse_fixed (s : PyStr) (hs : pyStrip s = s)
    (h1 : pyContains tickFence s = false)
    (h2 : ∀ p ∈ cleanPrefixes, p.isPrefixOf (pyLower s) = false) :
    cleanSqlResponse s = s := by
  unfold cleanSqlResponse
  rw [hs]
  have hext : extractCodeBlock s = s := by
    unfold extractCodeBlock
    rw [h1]
    simp
  rw [hext]
  unfold stripConversationalPrefix
  have hfind : List.find? (fun p => p.isPrefixOf (pyLower s)) cleanPrefixes = none := by
    rw [List.find?_eq_none]
    intro p hp
    simp [h2 p hp]
  rw [hfind]

/-- With an active provider, the service call reduces to the direct
client call: the memoized cache placeholder always yields `("", "")`,
whose first component is falsy, so the cache-hit branch is dead. -/
theorem aiServiceGenerateSql_some (enableCache : Bool) (prov : Provider)
    (claudeAvail bedrockAvail : Bool)
    (claudeOutcome bedrockOutcome : VendorOutcome) (question schema : PyStr) :
    aiServiceGenerateSql enableCache (some prov) claudeAvail bedrockAvail
        claudeOutcome bedrockOutcome question schema =
      (((match prov with
          | .claude => claudeClientGenerateSql claudeAvail claudeOutcome
          | .bedrock => bedrockClientGenerateSql bedrockAvail bedrockOutcome).1.1,
        (match prov with
          | .claude => claudeClientGenerateSql claudeAvail claudeOutcome
          | .bedrock => bedrockClientGenerateSql bedrockAvail bedrockOutcome).1.2,
        providerStr prov),
       (match prov with
          | .claude => claudeClientGenerateSql claudeAvail claudeOutcome
          | .bedrock => bedrockClientGenerateSql bedrockAvail bedrockOutcome).2) := by
  unfold aiServiceGenerateSql
  cases enableCache <;> simp [cachedGenerateSql]

/-! ## The claims -/

/-- **C1** (corrected), counterexample to the claim as stated: when the
vendor call succeeds but returns whitespace-only text, the old-style
`BedrockClient.generate_sql` strips it to `""` and reports no error, so
`AIService.generate_sql` returns a triple whose `sql` and `error`
components are both empty. -/
theorem c1_counterexample :
    ¬ exactlyOneNonEmpty (aiServiceGenerateSql true (some Provider.bedrock)
        false true (VendorOutcome.ok []) (VendorOutcome.ok (pystr "   "))
        (pystr "q") (pystr "schema")).1 := by
  decide

/-- **C1** (corrected): on every call of `AIService.generate_sql`, exactly
one of `sql` and `error` is non-empty, provided any successful vendor
response has non-whitespace text (the only violating case).  Cache hits
cannot occur (the cache placeholder stores only empty results), so the
"(cached)" case of the claim is vacuous; unavailability and vendor-failure
outcomes satisfy the invariant. -/
theorem c1_exactly_one_corrected (enableCache : Bool) (active : Option Provider)
    (claudeAvail bedrockAvail : Bool)
    (claudeOutcome bedrockOutcome : VendorOutcome) (question schema : PyStr)
    (hc : ∀ t, claudeOutcome = VendorOutcome.ok t → pyStrip t ≠ [])
    (hb : ∀ t, bedrockOutcome = VendorOutcome.ok t → pyStrip t ≠ []) :
    exactlyOneNonEmpty (aiServiceGenerateSql enableCache active claudeAvail
      bedrockAvail claudeOutcome bedrockOutcome question schema).1 := by
  cases active with
  | none =>
    exact Or.inr ⟨rfl, show noProviderError ≠ [] from by decide⟩
  | some prov =>
    rw [aiServiceGenerateSql_some]
    cases prov
    case claude =>
      cases claudeAvail
      case false =>
        exact Or.inr ⟨rfl,
          show pystr "Claude API client not available" ≠ [] from by decide⟩
      case true =>
        cases claudeOutcome with
        | ok t =>
          exact Or.inl ⟨hc t rfl, rfl⟩
        | raised m =>
          refine Or.inr ⟨rfl, ?_⟩
          intro hcontra
          exact absurd (List.append_eq_nil.mp hcontra).1 (by decide)
    case bedrock =>
      cases bedrockAvail
      case false =>
        exact Or.inr ⟨rfl,
          show pystr "Bedrock client not available" ≠ [] from by decide⟩
      case true =>
        cases bedrockOutcome with
        | ok t =>
          exact Or.inl ⟨hb t rfl, rfl⟩
        | raised m =>
          refine Or.inr ⟨rfl, ?_⟩
          intro hcontra
          exact absurd (List.append_eq_nil.mp hcontra).1 (by decide)

/-- Witness for `c1_exactly_one_corrected` at a concrete input. -/
theorem c1_exactly_one_witness :
    exactlyOneNonEmpty (aiServiceGenerateSql true (some Provider.bedrock)
      true true (VendorOutcome.ok (pystr "SELECT 1"))
      (VendorOutcome.ok (pystr "SELECT 1")) (pystr "q") (pystr "s")).1 :=
  c1_exactly_one_corrected true (some Provider.bedrock) true true
    (VendorOutcome.ok (pystr "SELECT 1")) (VendorOutcome.ok (pystr "SELECT 1"))
    (pystr "q") (pystr "s")
    (by intro t ht; cases ht; decide)
    (by intro t ht; cases ht; decide)

/-- **C2** (code_bug): in Python's ABC semantics, instantiating a class
raises `TypeError` iff an abstract method of the base lacks an override.
`BedrockAdapter` and `ClaudeAdapter` define `_generate_sql_impl` but never
override the abstract `generate_sql`, so their constructors raise instead
of returning an inert adapter — contradicting the claim (and the repo's
own tests, which instantiate both and call `generate_sql` on them).
`GeminiAdapter` does override `generate_sql` and constructs normally. -/
theorem c2_adapter_construction_raises :
    abcInstantiationRaises bedrockAdapterMethods = true ∧
    abcInstantiationRaises claudeAdapterMethods = true ∧
    abcInstantiationRaises geminiAdapterMethods = false := by
  decide

/-- **C3** (corrected), counterexample to the claim as stated: with both
remaining providers available and the configured default `"gemini"` (no
such adapter exists in `AIService`), the code selects `claude`, while the
claim's rule (first available in the order bedrock, claude, gemini)
selects `bedrock`. -/
theorem c3_counterexample :
    determineActiveProvider (pystr "gemini") true true = some Provider.claude ∧
    specDetermineActiveProvider (pystr "gemini") true true false =
      some (pystr "bedrock") ∧
    providerStr Provider.claude ≠ pystr "bedrock" := by
  decide

/-- **C3** (corrected): the service prefers the configured default among
{claude, bedrock} when that client is available; otherwise it selects the
first available client in the fixed order claude, bedrock (not bedrock
first, and gemini is not part of this service); with none available the
active provider is unset. -/
theorem c3_provider_selection_corrected (p : PyStr) (c b : Bool) :
    ((p = pystr "claude" ∧ c = true) →
      determineActiveProvider p c b = some Provider.claude) ∧
    ((p = pystr "bedrock" ∧ b = true) →
      determineActiveProvider p c b = some Provider.bedrock) ∧
    (¬(p = pystr "claude" ∧ c = true) → ¬(p = pystr "bedrock" ∧ b = true) →
      c = true → determineActiveProvider p c b = some Provider.claude) ∧
    (¬(p = pystr "claude" ∧ c = true) → ¬(p = pystr "bedrock" ∧ b = true) →
      c = false → b = true → determineActiveProvider p c b = some Provider.bedrock) ∧
    (c = false → b = false → determineActiveProvider p c b = none) := by
  refine ⟨?_, ?_, ?_, ?_, ?_⟩
  · rintro ⟨rfl, rfl⟩
    simp [determineActiveProvider]
  · rintro ⟨rfl, rfl⟩
    have h1 : (pystr "bedrock" == pystr "claude") = false := by decide
    simp [determineActiveProvider, h1]
  · intro h1 h2 hc
    subst hc
    have hp1 : (p == pystr "claude") = false := by
      rw [beq_eq_false_iff_ne]
      intro hcontra
      exact h1 ⟨hcontra, rfl⟩
    have hp2 : ((p == pystr "bedrock") && b) = false := by
      cases hpb : p == pystr "bedrock" with
      | false => simp
      | true =>
        have : p = pystr "bedrock" := by simpa using hpb
        cases b with
        | false => simp
        | true => exact absurd ⟨this, rfl⟩ h2
    simp [determineActiveProvider, hp1, hp2]
  · intro h1 h2 hc hb
    subst hc; subst hb
    have hp2 : (p == pystr "bedrock") = false := by
      rw [beq_eq_false_iff_ne]
      intro hcontra
      exact h2 ⟨hcontra, rfl⟩
    simp [determineActiveProvider, hp2]
  · intro hc hb
    subst hc; subst hb
    simp [determineActiveProvider]

/-- Witness for `c3_provider_selection_corrected` at a concrete input. -/
theorem c3_provider_selection_witness :
    determineActiveProvider (pystr "gemini") true true = some Provider.claude :=
  (c3_provider_selection_corrected (pystr "gemini") true true).2.2.1
    (by intro h; exact absurd h.1 (by decide)) (by intro h; exact absurd h.1 (by decide)) rfl

/-- **C4** (code_bug): `_cached_generate_sql` is a placeholder whose
memoized value is always `("", "")`, so the cache-hit test
`if cached_result[0]` never fires.  With a successful vendor and identical
arguments, each of the two calls — the service holds no other state —
evaluates to the triple below: the second call reports the bare provider
id (no "(cached)" suffix) and performs one further vendor call, where the
claim promises the suffix and zero additional vendor calls. -/
theorem c4_cache_never_hits :
    (aiServiceGenerateSql true (some Provider.bedrock) false true
        (VendorOutcome.ok []) (VendorOutcome.ok (pystr "SELECT 1"))
        (pystr "q") (pystr "s")).1 = (pystr "SELECT 1", [], pystr "bedrock") ∧
    (aiServiceGenerateSql true (some Provider.bedrock) false true
        (VendorOutcome.ok []) (VendorOutcome.ok (pystr "SELECT 1"))
        (pystr "q") (pystr "s")).2 = 1 ∧
    pystr "bedrock" ≠ pystr "bedrock (cached)" := by
  decide

/-- **C5** (corrected), counterexample to the claim as stated:
`_create_prompt_hash` hashes the raw concatenation with no normalization,
so changing only the comment-only first line of the schema changes the
MD5 cache key. -/
theorem c5_counterexample :
    createPromptHash (pystr "show loans") (pystr "-- comment A\nLOAN_ID VARCHAR")
        (pystr "bedrock") ≠
      createPromptHash (pystr "show loans") (pystr "-- comment B\nLOAN_ID VARCHAR")
        (pystr "bedrock") := by
  decide

/-- **C5** (corrected): the cache key is the MD5 of the raw
`question|schema|provider` string, so (with question and provider fixed)
any two distinct schemas — whether they differ in a comment-only line or
in a column definition line — produce distinct hash inputs; at the
concrete schema pairs of the counterexample both kinds of change also
produce distinct MD5 keys. -/
theorem c5_cache_key_corrected :
    (∀ q p s1 s2 : PyStr, s1 ≠ s2 →
        combinedHashInput q s1 p ≠ combinedHashInput q s2 p) ∧
    createPromptHash (pystr "show loans") (pystr "-- comment A\nLOAN_ID VARCHAR")
        (pystr "bedrock") ≠
      createPromptHash (pystr "show loans") (pystr "-- comment B\nLOAN_ID VARCHAR")
        (pystr "bedrock") ∧
    createPromptHash (pystr "show loans") (pystr "-- comment A\nLOAN_ID VARCHAR")
        (pystr "bedrock") ≠
      createPromptHash (pystr "show loans") (pystr "-- comment A\nLOAN_AGE INTEGER")
        (pystr "bedrock") := by
  refine ⟨?_, by decide, by decide⟩
  intro q p s1 s2 hne heq
  apply hne
  unfold combinedHashInput at heq
  have h1 := List.append_cancel_right heq
  have h2 := List.append_cancel_right h1
  exact List.append_cancel_left h2

/-- Witness for `c5_cache_key_corrected` at a concrete input. -/
theorem c5_cache_key_witness :
    combinedHashInput (pystr "show loans") (pystr "-- comment A\nLOAN_ID VARCHAR")
        (pystr "bedrock") ≠
      combinedHashInput (pystr "show loans") (pystr "-- comment B\nLOAN_ID VARCHAR")
        (pystr "bedrock") :=
  c5_cache_key_corrected.1 (pystr "show loans") (pystr "bedrock")
    (pystr "-- comment A\nLOAN_ID VARCHAR") (pystr "-- comment B\nLOAN_ID VARCHAR")
    (by decide)

/-- **C6** (confirmed, modelled from the spec): `set_active_provider(id)`
succeeds and sets the active provider exactly when `id` names a currently
available adapter; for every unavailable or unknown id it returns false
and leaves the state — in particular `active_provider` — unchanged. -/
theorem c6_set_active_provider (st : OrchestratorState) (id : PyStr) :
    (adapterAvailable st id = true →
      setActiveProvider st id = (true, { st with activeProvider := some id })) ∧
    (adapterAvailable st id = false →
      setActiveProvider st id = (false, st)) := by
  constructor <;> intro h <;> simp [setActiveProvider, h]

/-- Witness for `c6_set_active_provider` at a concrete input: switching to
an unavailable provider fails and leaves the state unchanged. -/
theorem c6_set_active_provider_witness :
    setActiveProvider ⟨true, false, false, none⟩ (pystr "claude") =
      (false, ⟨true, false, false, none⟩) :=
  (c6_set_active_provider ⟨true, false, false, none⟩ (pystr "claude")).2 (by decide)

/-- **C7** (confirmed): for every adapter-level generate-SQL
implementation and every prompt/vendor behaviour, an unavailable adapter
returns `("", e)` with a fixed non-empty error and performs zero vendor
calls. -/
theorem c7_unavailable_no_call (gst : GeminiAdapterState) (goc : GeminiOutcome)
    (bst : BedrockAdapterState) (boc : BedrockOutcome)
    (cst : ClaudeAdapterState) (coc : ClaudeOutcome)
    (bcAvail ccAvail : Bool) (bco cco : VendorOutcome) :
    (geminiIsAvailable gst = false →
      geminiGenerateSql gst goc =
        (([], pystr "Gemini not available. Check GOOGLE_API_KEY configuration."), 0)) ∧
    (bedrockAdapterIsAvailable bst = false →
      bedrockGenerateSqlImpl bst boc =
        (([], pystr "Bedrock client not available. Check AWS credentials and configuration."), 0)) ∧
    (claudeAdapterIsAvailable cst = false →
      claudeGenerateSqlImpl cst coc =
        (([], pystr "Claude API not available. Check CLAUDE_API_KEY configuration."), 0)) ∧
    (bcAvail = false →
      bedrockClientGenerateSql bcAvail bco =
        (([], pystr "Bedrock client not available"), 0)) ∧
    (ccAvail = false →
      claudeClientGenerateSql ccAvail cco =
        (([], pystr "Claude API client not available"), 0)) ∧
    pystr "Gemini not available. Check GOOGLE_API_KEY configuration." ≠ [] ∧
    pystr "Bedrock client not available. Check AWS credentials and configuration." ≠ [] ∧
    pystr "Claude API not available. Check CLAUDE_API_KEY configuration." ≠ [] ∧
    pystr "Bedrock client not available" ≠ [] ∧
    pystr "Claude API client not available" ≠ [] := by
  refine ⟨?_, ?_, ?_, ?_, ?_, by decide, by decide, by decide, by decide, by decide⟩
  · intro h
    simp [geminiGenerateSql, h]
  · intro h
    simp [bedrockGenerateSqlImpl, h]
  · intro h
    simp [claudeGenerateSqlImpl, h]
  · intro h
    subst h
    simp [bedrockClientGenerateSql]
  · intro h
    subst h
    simp [claudeClientGenerateSql]

/-- Witness for `c7_unavailable_no_call` at concrete unavailable states. -/
theorem c7_unavailable_witness :
    geminiGenerateSql ⟨false, false⟩ GeminiOutcome.empty =
      (([], pystr "Gemini not available. Check GOOGLE_API_KEY configuration."), 0) ∧
    bedrockGenerateSqlImpl ⟨false, none, none⟩ BedrockOutcome.empty =
      (([], pystr "Bedrock client not available. Check AWS credentials and configuration."), 0) ∧
    claudeGenerateSqlImpl ⟨false, none, none, none⟩ ClaudeOutcome.empty =
      (([], pystr "Claude API not available. Check CLAUDE_API_KEY configuration."), 0) ∧
    bedrockClientGenerateSql false (VendorOutcome.ok (pystr "SELECT 1")) =
      (([], pystr "Bedrock client not available"), 0) ∧
    claudeClientGenerateSql false (VendorOutcome.ok (pystr "SELECT 1")) =
      (([], pystr "Claude API client not available"), 0) := by
  have h := c7_unavailable_no_call ⟨false, false⟩ GeminiOutcome.empty
    ⟨false, none, none⟩ BedrockOutcome.empty ⟨false, none, none, none⟩
    ClaudeOutcome.empty false false (VendorOutcome.ok (pystr "SELECT 1"))
    (VendorOutcome.ok (pystr "SELECT 1"))
  exact ⟨h.1 (by decide), h.2.1 (by decide), h.2.2.1 (by decide),
    h.2.2.2.1 rfl, h.2.2.2.2.1 rfl⟩

/-- **C8** (corrected), counterexample to the claim as stated:
`clean_sql_response` removes only the first matching conversational
prefix, so a doubled prefix survives one application and is removed by
the second — the function is not idempotent. -/
theorem c8_counterexample :
    cleanSqlResponse (pystr "query: query: select 1") = pystr "query: select 1" ∧
    cleanSqlResponse (cleanSqlResponse (pystr "query: query: select 1")) ≠
      cleanSqlResponse (pystr "query: query: select 1") := by
  decide

/-- **C8** (corrected): `clean_sql_response` is idempotent on every input
whose cleaned form neither contains a triple-backtick fence nor begins
(case-insensitively) with one of the removable conversational prefixes —
the two failure modes exhibited by the counterexample family. -/
theorem c8_clean_idempotent_corrected (x : PyStr)
    (h1 : pyContains tickFence (cleanSqlResponse x) = false)
    (h2 : ∀ p ∈ cleanPrefixes, p.isPrefixOf (pyLower (cleanSqlResponse x)) = false) :
    cleanSqlResponse (cleanSqlResponse x) = cleanSqlResponse x :=
  cleanSqlResponse_fixed _ (cleanSqlResponse_stripped x) h1 h2

/-- Witness for `c8_clean_idempotent_corrected` at a concrete input. -/
theorem c8_clean_idempotent_witness :
    cleanSqlResponse (cleanSqlResponse (pystr "```sql\nSELECT 1\n```")) =
      cleanSqlResponse (pystr "```sql\nSELECT 1\n```") :=
  c8_clean_idempotent_corrected (pystr "```sql\nSELECT 1\n```")
    (by decide) (by decide)

/-- **C9** (corrected), counterexample to the claim as stated: the code
accepts any text that merely *starts with* an allow-list keyword, so
`"selection from t"` — whose first token `"selection"` is not in the
allow-list — is accepted with `(True, "")` where the claim requires
rejection. -/
theorem c9_counterexample :
    validateResponse (pystr "selection from t") = (true, []) ∧
    sqlKeywords.contains (firstToken (pystr "selection from t")) = false := by
  decide

/-- **C9** (corrected): `validate_response` rejects exactly the inputs
that are empty/whitespace-only or whose lower-cased stripped text does
not *start with* one of the allow-list keywords (a prefix test, not a
first-token test); every other input is accepted. -/
theorem c9_validate_characterization (sql : PyStr) :
    (validateResponse sql).1 = false ↔
      (pyStrip sql = [] ∨
        ∀ k ∈ sqlKeywords, k.isPrefixOf (pyStrip (pyLower sql)) = false) := by
  unfold validateResponse
  by_cases h0 : (sql.isEmpty || (pyStrip sql).isEmpty) = true
  · rw [if_pos h0]
    have hstrip : pyStrip sql = [] := by
      have h0or : sql.isEmpty = true ∨ (pyStrip sql).isEmpty = true := by
        simpa using h0
      rcases h0or with he | he
      · have : sql = [] := List.isEmpty_iff.mp he
        rw [this]
        decide
      · exact List.isEmpty_iff.mp he
    exact iff_of_true rfl (Or.inl hstrip)
  · rw [if_neg h0]
    have hne : pyStrip sql ≠ [] := by
      intro hcontra
      apply h0
      rw [hcontra]
      simp
    by_cases hk : (sqlKeywords.any fun k => k.isPrefixOf (pyStrip (pyLower sql))) = true
    · rw [if_neg (by simp [hk])]
      have hfst : ((if dangerousKeywords.any fun k => pyContains k (pyStrip (pyLower sql))
          then ((true : Bool), destructiveWarning)
          else ((true : Bool), ([] : PyStr)))).1 = true := by
        split <;> rfl
      constructor
      · intro hfalse
        rw [hfst] at hfalse
        cases hfalse
      · intro hR
        exfalso
        rcases hR with h | hall
        · exact hne h
        · rcases List.any_eq_true.mp hk with ⟨k, hkmem, hkpre⟩
          rw [hall k hkmem] at hkpre
          cases hkpre
    · rw [Bool.not_eq_true] at hk
      rw [if_pos (by rw [hk]; rfl)]
      refine iff_of_true rfl (Or.inr ?_)
      intro k hkmem
      have := List.any_eq_false.mp hk k hkmem
      exact Bool.not_eq_true _ ▸ this

/-- **C10** (confirmed): the destructive-operation warning is a pure
substring test on the lower-cased text — every accepted input containing
"drop", "delete", "truncate" or "alter" anywhere (identifiers included)
yields `(True, warning)` rather than `(True, "")`. -/
theorem c10_destructive_substring_warning (sql : PyStr)
    (hacc : (validateResponse sql).1 = true)
    (hd : ∃ k, k ∈ dangerousKeywords ∧ pyContains k (pyLower sql) = true) :
    validateResponse sql = (true, destructiveWarning) := by
  rcases hd with ⟨k, hkmem, hinf⟩
  have hkprops : (∀ c ∈ k, pyIsSpace c = false) ∧ k ≠ [] := by
    have hmem := hkmem
    simp only [dangerousKeywords, List.mem_cons, List.not_mem_nil, or_false] at hmem
    rcases hmem with rfl | rfl | rfl | rfl <;> exact ⟨by decide, by decide⟩
  have hinf2 : pyContains k (pyStrip (pyLower sql)) = true := by
    rw [pyContains_iff] at hinf ⊢
    exact infix_pyStrip_of_nonspace k hkprops.1 hkprops.2 _ hinf
  unfold validateResponse at hacc ⊢
  by_cases h0 : (sql.isEmpty || (pyStrip sql).isEmpty) = true
  · rw [if_pos h0] at hacc
    cases hacc
  · rw [if_neg h0] at hacc ⊢
    by_cases hkw : (!(sqlKeywords.any fun k => k.isPrefixOf (pyStrip (pyLower sql)))) = true
    · rw [if_pos hkw] at hacc
      cases hacc
    · rw [if_neg hkw] at hacc ⊢
      have hany : (dangerousKeywords.any fun d => pyContains d (pyStrip (pyLower sql))) = true :=
        List.any_eq_true.mpr ⟨k, hkmem, hinf2⟩
      rw [if_pos hany]

/-- Witness for `c10_destructive_substring_warning` at a concrete input:
a plain SELECT whose only destructive-looking text is inside the
identifier `dropped_flag` is accepted but flagged. -/
theorem c10_destructive_substring_witness :
    validateResponse (pystr "select dropped_flag from t") =
      (true, destructiveWarning) :=
  c10_destructive_substring_warning (pystr "select dropped_flag from t")
    (by decide) ⟨pystr "drop", by decide, by decide⟩

end ConverSQL
